import Mathlib

/-!
Verification development for the `why` command-provenance detector.

The Rust sources are shallowly embedded as Lean definitions:
* paths are `String`s (the code only ever inspects `to_string_lossy` views);
* the filesystem's symlink table (`fs::read_link`) is a finite association
  list `List (String × String)`, failure of `read_link` = key absent;
* `Path::canonicalize` is an oracle `String → Option String` (`none` = Err);
* the `which` crate's search and the `dpkg` subprocess queries are oracles
  `String → Option _`;
* Rust string primitives (`contains`, `find`, `starts_with`, `ends_with`,
  `split`) are re-implemented over `List Char`.
-/

namespace Why

/-- Platform enumeration, from src/platform/mod.rs. -/
inductive Platform where
  | MacOS
  | Linux
  | Windows
deriving DecidableEq

/-- Compile-time build target, standing for the `cfg(target_os = ...)`
conditionals in the source; `other` is any non-mac non-linux non-windows
unix, for which `Platform::current` defaults to Linux. -/
inductive BuildTarget where
  | macos
  | linux
  | windows
  | other
deriving DecidableEq

/-- Platform::current from src/platform/mod.rs, as a function of the build
target the binary was compiled for. -/
def Platform.current : BuildTarget → Platform
  | .macos => .MacOS
  | .linux => .Linux
  | .windows => .Windows
  | .other => .Linux

/-- Confidence level of a detection, from src/package_managers/mod.rs. -/
inductive Confidence where
  | High
  | Medium
  | Low
  | Uncertain
deriving DecidableEq

/-- DetectionContext from src/package_managers/mod.rs (paths as strings). -/
structure DetectionContext where
  command_name : String
  command_path : String
  symlink_chain : List String
  resolved_path : String
  platform : Platform
deriving DecidableEq

/-- DetectionResult from src/package_managers/mod.rs. -/
structure DetectionResult where
  manager_id : String
  manager_name : String
  package_name : Option String
  version : Option String
  confidence : Confidence
  command_path : String
  resolved_path : String
deriving DecidableEq

/-- WhyError from src/error.rs; `std::io::Error` payloads are dropped and
formatted-string payloads kept as the interesting string. -/
inductive WhyError where
  | CommandNotFound (name : String)
  | PathResolutionError (path : String)
  | SymlinkError (path : String)
  | PackageManagerUnavailable (manager : String)
  | VerificationFailed (command : String)
  | UnknownSource (command : String)
  | Io
deriving DecidableEq

/-! ## String primitives modelling Rust `str` operations over `List Char` -/

/-- Suffix of `l` after the first occurrence of `pat`; `none` when `pat`
does not occur.  Models `str::find(pat)` followed by slicing
`&s[idx + pat.len()..]` (leftmost occurrence, as in Rust). -/
def afterSub (pat : List Char) (l : List Char) : Option (List Char) :=
  if pat.isPrefixOf l then some (l.drop pat.length)
  else
    match l with
    | [] => none
    | _ :: t => afterSub pat t

/-- Models Rust `str::contains(pat)`. -/
def strContains (s pat : String) : Bool :=
  (afterSub pat.data s.data).isSome

/-- Models Rust `str::starts_with(pat)` for a string pattern. -/
def strStarts (s pat : String) : Bool :=
  pat.data.isPrefixOf s.data

/-- Models Rust `str::ends_with(pat)` for a string pattern. -/
def strEnds (s pat : String) : Bool :=
  pat.data.isSuffixOf s.data

/-- Models Rust `str::starts_with(c)` for a char pattern. -/
def startsWithChar (l : List Char) (c : Char) : Bool :=
  match l with
  | [] => false
  | d :: _ => d == c

/-- Models Rust `str::split(sep).collect::<Vec<_>>()`: every separator
splits, empty pieces are kept, the empty string yields one empty piece. -/
def splitChar (sep : Char) : List Char → List (List Char)
  | [] => [[]]
  | c :: t =>
    if c == sep then [] :: splitChar sep t
    else
      match splitChar sep t with
      | [] => [[c]]
      | h :: r => (c :: h) :: r

/-- Drop `pre` from the front of `cs` when it is a prefix, else `none`. -/
def dropPrefixQ (cs pre : List Char) : Option (List Char) :=
  if pre.isPrefixOf cs then some (cs.drop pre.length) else none

/-! ## Detector trait and individual detectors -/

/-- The PackageManagerDetector trait from src/package_managers/mod.rs as a
record of its capabilities; each Rust impl becomes a value of this type. -/
structure PackageManagerDetector where
  id : String
  name : String
  supports_platform : Platform → Bool
  priority : Int
  detect : DetectionContext → Option DetectionResult

/-! ### Homebrew (src/package_managers/homebrew.rs) -/

/-- Parse one `([^/]+)/` group: a nonempty slash-free segment that must be
terminated by a slash; returns the segment and the rest after the slash. -/
def cellar_parse_seg (cs : List Char) : Option (List Char × List Char) :=
  let seg := cs.takeWhile (fun c => !(c == '/'))
  if seg.isEmpty then none
  else
    match cs.drop seg.length with
    | '/' :: rest => some (seg, rest)
    | _ => none

/-- Match CELLAR_REGEX anchored at the start of `cs`: one of the three
literal Homebrew roots, then the literal `/Cellar/`, then the two captured
segments each followed by a slash.  The three alternatives are mutually
exclusive at any position, so alternation order is irrelevant. -/
def cellar_at (cs : List Char) : Option (String × String) :=
  let rest :=
    match dropPrefixQ cs ("/opt/homebrew/Cellar/").data with
    | some r => some r
    | none =>
      match dropPrefixQ cs ("/usr/local/Cellar/").data with
      | some r => some r
      | none => dropPrefixQ cs ("/home/linuxbrew/.linuxbrew/Cellar/").data
  match rest with
  | none => none
  | some r =>
    match cellar_parse_seg r with
    | none => none
    | some (seg1, r1) =>
      match cellar_parse_seg r1 with
      | none => none
      | some (seg2, _) => some (String.mk seg1, String.mk seg2)

/-- Leftmost (smallest starting position) match of CELLAR_REGEX, the
search semantics of `Regex::captures`. -/
def cellar_find : List Char → Option (String × String)
  | [] => none
  | c :: t =>
    match cellar_at (c :: t) with
    | some r => some r
    | none => cellar_find t

/-- CELLAR_REGEX captures (package, version) from src/package_managers/homebrew.rs. -/
def cellar_captures (s : String) : Option (String × String) :=
  cellar_find s.data

/-- HomebrewDetector::detect from src/package_managers/homebrew.rs. -/
def homebrew_detect (ctx : DetectionContext) : Option DetectionResult :=
  match ctx.symlink_chain.findSome? (fun p => cellar_captures p) with
  | some (package_name, version) =>
    some { manager_id := "homebrew", manager_name := "Homebrew",
           package_name := some package_name, version := some version,
           confidence := .High,
           command_path := ctx.command_path, resolved_path := ctx.resolved_path }
  | none =>
    if strContains ctx.resolved_path ("/opt/homebrew/")
        || strContains ctx.resolved_path ("/usr/local/Homebrew/")
        || strContains ctx.resolved_path ("/home/linuxbrew/.linuxbrew/") then
      some { manager_id := "homebrew", manager_name := "Homebrew",
             package_name := none, version := none,
             confidence := .Medium,
             command_path := ctx.command_path, resolved_path := ctx.resolved_path }
    else none

/-- HomebrewDetector as a registry entry (macOS and Linux, priority 100). -/
def HomebrewDetector : PackageManagerDetector where
  id := "homebrew"
  name := "Homebrew"
  supports_platform := fun platform =>
    match platform with
    | .MacOS => true
    | .Linux => true
    | .Windows => false
  priority := 100
  detect := homebrew_detect

/-! ### npm (src/package_managers/npm.rs) -/

/-- extract_npm_package_name from src/package_managers/npm.rs: the path
segment right after the first `/node_modules/`, a scoped `@scope/name`
pair being taken as one unit. -/
def extract_npm_package_name (path : String) : Option String :=
  match afterSub ("/node_modules/").data path.data with
  | none => none
  | some after =>
    match splitChar '/' after with
    | [] => none
    | first :: rest =>
      if first.isEmpty then none
      else if startsWithChar first '@' && !rest.isEmpty && !(rest.headD []).isEmpty then
        some (String.mk (first ++ '/' :: rest.headD []))
      else some (String.mk first)

/-- Path condition of NpmGlobalDetector::detect. -/
def npm_path_cond (p : String) : Bool :=
  strContains p ("/node_modules/")
    || strContains p ("/.npm-global/")
    || strContains p ("/lib/node_modules/")

/-- NpmGlobalDetector::detect from src/package_managers/npm.rs: the first
chain element matching a global-npm pattern produces the result. -/
def npm_detect (ctx : DetectionContext) : Option DetectionResult :=
  match ctx.symlink_chain.find? (fun p => npm_path_cond p) with
  | some p =>
    some { manager_id := "npm_global", manager_name := "npm (global)",
           package_name := extract_npm_package_name p, version := none,
           confidence := .Medium,
           command_path := ctx.command_path, resolved_path := ctx.resolved_path }
  | none => none

/-- NpmGlobalDetector as a registry entry (all platforms, priority 90). -/
def NpmGlobalDetector : PackageManagerDetector where
  id := "npm_global"
  name := "npm (global)"
  supports_platform := fun _ => true
  priority := 90
  detect := npm_detect

/-! ### bun (src/package_managers/bun.rs) -/

/-- Path condition of BunGlobalDetector::detect. -/
def bun_path_cond (p : String) : Bool :=
  strContains p ("/.bun/bin/") || strContains p ("/.bun/install/global/")

/-- BunGlobalDetector::detect from src/package_managers/bun.rs. -/
def bun_detect (ctx : DetectionContext) : Option DetectionResult :=
  match ctx.symlink_chain.find? (fun p => bun_path_cond p) with
  | some _ =>
    some { manager_id := "bun_global", manager_name := "bun (global)",
           package_name := some ctx.command_name, version := none,
           confidence := .Medium,
           command_path := ctx.command_path, resolved_path := ctx.resolved_path }
  | none => none

/-- BunGlobalDetector as a registry entry (all platforms, priority 95). -/
def BunGlobalDetector : PackageManagerDetector where
  id := "bun_global"
  name := "bun (global)"
  supports_platform := fun _ => true
  priority := 95
  detect := bun_detect

/-! ### system (src/package_managers/system.rs) -/

/-- The `is_system` binding of SystemDetector::detect: the resolved path
lies under one of the platform's canonical system directories. -/
def system_is_system (ctx : DetectionContext) : Bool :=
  match ctx.platform with
  | .MacOS =>
    strStarts ctx.resolved_path ("/bin/")
      || strStarts ctx.resolved_path ("/sbin/")
      || strStarts ctx.resolved_path ("/usr/bin/")
      || strStarts ctx.resolved_path ("/usr/sbin/")
      || strStarts ctx.resolved_path ("/System/")
  | .Linux =>
    strStarts ctx.resolved_path ("/bin/")
      || strStarts ctx.resolved_path ("/sbin/")
      || strStarts ctx.resolved_path ("/usr/bin/")
      || strStarts ctx.resolved_path ("/usr/sbin/")
  | .Windows =>
    strContains ctx.resolved_path ("\\Windows\\System32\\")
      || strContains ctx.resolved_path ("\\Windows\\SysWOW64\\")

/-- SystemDetector::detect from src/package_managers/system.rs. -/
def system_detect (ctx : DetectionContext) : Option DetectionResult :=
  if system_is_system ctx then
    some { manager_id := "system", manager_name := "System (OS Standard)",
           package_name := none, version := none,
           confidence := .Medium,
           command_path := ctx.command_path, resolved_path := ctx.resolved_path }
  else none

/-- SystemDetector as a registry entry (all platforms, priority 10). -/
def SystemDetector : PackageManagerDetector where
  id := "system"
  name := "System (OS Standard)"
  supports_platform := fun _ => true
  priority := 10
  detect := system_detect

/-! ### apt (src/package_managers/apt.rs, compiled on Linux targets only) -/

/-- AptDetector::detect from src/package_managers/apt.rs; the
`dpkg -S` / `dpkg-query` subprocess pair of query_dpkg is the oracle
`query_dpkg : String → Option (String × String)`. -/
def apt_detect (query_dpkg : String → Option (String × String))
    (ctx : DetectionContext) : Option DetectionResult :=
  if !strStarts ctx.resolved_path ("/usr/bin/")
      && !strStarts ctx.resolved_path ("/usr/sbin/")
      && !strStarts ctx.resolved_path ("/bin/")
      && !strStarts ctx.resolved_path ("/sbin/") then
    none
  else
    match query_dpkg ctx.resolved_path with
    | some (package, version) =>
      some { manager_id := "apt", manager_name := "apt",
             package_name := some package, version := some version,
             confidence := .High,
             command_path := ctx.command_path, resolved_path := ctx.resolved_path }
    | none => none

/-- AptDetector as a registry entry (Linux only, priority 50). -/
def AptDetector (query_dpkg : String → Option (String × String)) :
    PackageManagerDetector where
  id := "apt"
  name := "apt"
  supports_platform := fun platform =>
    match platform with
    | .Linux => true
    | _ => false
  priority := 50
  detect := apt_detect query_dpkg

/-! ### chocolatey (src/package_managers/chocolatey.rs, Windows targets only) -/

/-- ChocolateyDetector::detect from src/package_managers/chocolatey.rs. -/
def chocolatey_detect (ctx : DetectionContext) : Option DetectionResult :=
  match ctx.symlink_chain.find?
      (fun p => strContains p ("\\ProgramData\\chocolatey\\")
        || strContains p ("\\Chocolatey\\")) with
  | some _ =>
    some { manager_id := "chocolatey", manager_name := "Chocolatey",
           package_name := some ctx.command_name, version := none,
           confidence := .Medium,
           command_path := ctx.command_path, resolved_path := ctx.resolved_path }
  | none => none

/-- ChocolateyDetector as a registry entry (Windows only, priority 80). -/
def ChocolateyDetector : PackageManagerDetector where
  id := "chocolatey"
  name := "Chocolatey"
  supports_platform := fun platform =>
    match platform with
    | .Windows => true
    | _ => false
  priority := 80
  detect := chocolatey_detect

/-! ### yarn (src/package_managers/yarn.rs)

The yarn detector exists in the repository but mod.rs declares no
`mod yarn;`, so it is never compiled into the registry; it is embedded
here to compare its behaviour with what the registry actually does. -/

/-- Try one of the two separators of extract_yarn_package_name from
src/package_managers/yarn.rs; a first segment equal to `.bin` is
rejected (falls through to the next pattern). -/
def yarn_extract_try (path pat : List Char) (sep : Char) : Option String :=
  match afterSub pat path with
  | none => none
  | some after =>
    match splitChar sep after with
    | [] => none
    | first :: rest =>
      if first.isEmpty then none
      else if startsWithChar first '@' && !rest.isEmpty && !(rest.headD []).isEmpty then
        some (String.mk (first ++ '/' :: rest.headD []))
      else if first == (".bin").data then none
      else some (String.mk first)

/-- extract_yarn_package_name from src/package_managers/yarn.rs. -/
def extract_yarn_package_name (path : String) : Option String :=
  match yarn_extract_try path.data ("/node_modules/").data '/' with
  | some r => some r
  | none => yarn_extract_try path.data ("\\node_modules\\").data '\\'

/-- Path condition of YarnGlobalDetector::detect. -/
def yarn_path_cond (p : String) : Bool :=
  strContains p ("/.yarn/bin/")
    || strEnds p ("/.yarn/bin")
    || strContains p ("/yarn/global/node_modules/")
    || strContains p ("\\Yarn\\bin\\")
    || strEnds p ("\\Yarn\\bin")
    || strContains p ("\\Yarn\\Data\\global\\node_modules\\")

/-- YarnGlobalDetector::detect from src/package_managers/yarn.rs. -/
def yarn_detect (ctx : DetectionContext) : Option DetectionResult :=
  let matched := ctx.symlink_chain.any (fun p => yarn_path_cond p)
  if matched then
    let package_name :=
      match ctx.symlink_chain.findSome? (fun p => extract_yarn_package_name p) with
      | some n => some n
      | none => some ctx.command_name
    some { manager_id := "yarn_global", manager_name := "yarn (global)",
           package_name := package_name, version := none,
           confidence := .Medium,
           command_path := ctx.command_path, resolved_path := ctx.resolved_path }
  else none

/-- YarnGlobalDetector as a registry entry (all platforms, priority 91);
present in the repository but never registered by
PackageManagerRegistry::new. -/
def YarnGlobalDetector : PackageManagerDetector where
  id := "yarn_global"
  name := "yarn (global)"
  supports_platform := fun _ => true
  priority := 91
  detect := yarn_detect

/-! ## The registry (src/package_managers/mod.rs) -/

/-- Insert `x` into `s` before the first element whose priority does not
exceed it; the building block of the stable descending sort below. -/
def insertDesc (x : PackageManagerDetector) :
    List PackageManagerDetector → List PackageManagerDetector
  | [] => [x]
  | y :: ys => if y.priority ≤ x.priority then x :: y :: ys else y :: insertDesc x ys

/-- Stable sort by descending priority, modelling
`detectors.sort_by_key(|d| Reverse(d.priority()))` (Vec::sort_by_key is a
stable sort); ties keep registration order. -/
def sortByPriorityDesc (l : List PackageManagerDetector) :
    List PackageManagerDetector :=
  l.foldr insertDesc []

/-- PackageManagerRegistry::new from src/package_managers/mod.rs: the four
unconditional detectors in registration order, the apt detector appended
on Linux targets and the chocolatey detector on Windows targets
(per the `cfg(target_os)` blocks), then the stable descending sort. -/
def registry_new (query_dpkg : String → Option (String × String))
    (target : BuildTarget) : List PackageManagerDetector :=
  let detectors := [HomebrewDetector, NpmGlobalDetector, BunGlobalDetector,
    SystemDetector]
  let detectors :=
    match target with
    | .linux => detectors ++ [AptDetector query_dpkg]
    | .windows => detectors ++ [ChocolateyDetector]
    | _ => detectors
  sortByPriorityDesc detectors

/-- PackageManagerRegistry::detect from src/package_managers/mod.rs:
scan the sorted detectors, skip those whose supports_platform rejects the
context's platform, return the first non-empty detect result (the verbose
eprintln logging is output-only and omitted). -/
def registry_detect : List PackageManagerDetector → DetectionContext →
    Option DetectionResult
  | [], _ => none
  | d :: rest, ctx =>
    if d.supports_platform ctx.platform then
      match d.detect ctx with
      | some result => some result
      | none => registry_detect rest ctx
    else registry_detect rest ctx

/-! ## Symlink chain walker (src/detector/symlink_analyzer.rs) -/

/-- Lookup in the finite symlink table, modelling `fs::read_link`:
`none` both for a non-symlink and for an unreadable path (the code treats
every `Err` alike). -/
def read_link (links : List (String × String)) (p : String) : Option String :=
  (links.find? (fun e => e.1 == p)).map (fun e => e.2)

/-- Unix `Path::is_absolute`. -/
def path_is_absolute (p : String) : Bool :=
  strStarts p ("/")

/-- Strip trailing slashes, keeping a lone root slash. -/
def dropTrailingSlashes (cs : List Char) : List Char :=
  ((cs.reverse.dropWhile (fun c => c == '/')).reverse) ++
    (if cs ≠ [] && cs.all (fun c => c == '/') then ['/'] else [])

/-- Unix `Path::parent`: the path without its final component; `none` for
the root and the empty path. -/
def path_parent (p : String) : Option String :=
  let s := dropTrailingSlashes p.data
  if s = [] || s = ['/'] then none
  else
    match (s.reverse.dropWhile (fun c => !(c == '/'))) with
    | [] => some ""                  -- single relative component
    | ['/'] => some "/"              -- component directly under the root
    | _ :: pre => some (String.mk (dropTrailingSlashes pre.reverse))

/-- Unix `Path::join` for the non-absolute argument case (the caller below
checks absoluteness first): append with a separating slash. -/
def path_join (base rel : String) : String :=
  if base = "" then rel
  else if strEnds base ("/") then base ++ rel
  else base ++ "/" ++ rel

/-- Target resolution step of follow_symlinks: an absolute target is taken
as is, a relative one is joined onto the parent directory of the current
path (falling back to the bare target when there is no parent). -/
def resolve_target (current target : String) : String :=
  if path_is_absolute target then target
  else
    match path_parent current with
    | some parent => path_join parent target
    | none => target

/-- Unseen keys of the symlink table: the termination measure of the
walker's loop. -/
def unseenKeys (links : List (String × String)) (seen : List String) : Nat :=
  ((links.map Prod.fst).filter (fun k => !(decide (k ∈ seen)))).length

/-- Marking a fresh key as seen strictly shrinks the set of unseen keys. -/
theorem unseenKeys_cons_lt {links : List (String × String)} {seen : List String}
    {a : String} (ha : a ∈ links.map Prod.fst) (hns : a ∉ seen) :
    unseenKeys links (a :: seen) < unseenKeys links seen := by
  unfold unseenKeys
  have hsub : List.Sublist
      ((links.map Prod.fst).filter (fun k => !(decide (k ∈ a :: seen))))
      ((links.map Prod.fst).filter (fun k => !(decide (k ∈ seen)))) := by
    refine List.monotone_filter_right _ (fun x hx => ?_)
    simp only [Bool.not_eq_true', decide_eq_false_iff_not, List.mem_cons,
      not_or] at hx ⊢
    exact hx.2
  have hmemq : a ∈ (links.map Prod.fst).filter (fun k => !(decide (k ∈ seen))) :=
    List.mem_filter.mpr ⟨ha, by simpa using hns⟩
  have hnmp : a ∉ (links.map Prod.fst).filter (fun k => !(decide (k ∈ a :: seen))) := by
    intro hmem
    have hpa := (List.mem_filter.mp hmem).2
    simp at hpa
  refine lt_of_le_of_ne hsub.length_le (fun heq => ?_)
  rw [hsub.eq_of_length heq] at hnmp
  exact hnmp hmemq

/-- Reading the table succeeds only on its keys. -/
theorem read_link_some_mem {links : List (String × String)} {p target : String}
    (h : read_link links p = some target) : p ∈ links.map Prod.fst := by
  unfold read_link at h
  cases hf : links.find? (fun e => e.1 == p) with
  | none => rw [hf] at h; simp at h
  | some e =>
    have hmem := List.mem_of_find?_eq_some hf
    have heq := List.find?_some hf
    exact List.mem_map.mpr ⟨e, hmem, by simpa using heq⟩

/-- Loop body of follow_symlinks.  `seen` collects every path whose
symlink status has been inspected; the loop exits when the current path
repeats (cycle), or when read_link fails (regular file, missing path or
I/O error).  Termination: an iteration recurses only when read_link
succeeds, i.e. when the current path is a key of the finite table not yet
in `seen`, so the count of unseen keys strictly decreases. -/
def follow_loop (links : List (String × String)) (canon : String → Option String)
    (chain : List String) (current : String) (seen : List String) :
    List String :=
  if hseen : current ∈ seen then chain
  else
    match h : read_link links current with
    | none => chain
    | some target =>
      let resolved := resolve_target current target
      let resolved := (canon resolved).getD resolved
      follow_loop links canon (chain ++ [resolved]) resolved (current :: seen)
termination_by unseenKeys links seen
decreasing_by
  exact unseenKeys_cons_lt (read_link_some_mem h) hseen

/-- follow_symlinks from src/detector/symlink_analyzer.rs: the chain
starts as the singleton of the input path and grows by one resolved
target per loop iteration. -/
def follow_symlinks (links : List (String × String))
    (canon : String → Option String) (path : String) : List String :=
  follow_loop links canon [path] path []

/-! ## Orchestration (src/detector/mod.rs, src/detector/path_resolver.rs) -/

/-- The ambient process environment: the `which` search, the symlink
table and canonicalization of the filesystem, the dpkg query tool, and
the OS the binary was built for. -/
structure Env where
  which : String → Option String
  links : List (String × String)
  canon : String → Option String
  query_dpkg : String → Option (String × String)
  target : BuildTarget

/-- resolve_command from src/detector/path_resolver.rs: any failure of the
`which` search collapses to CommandNotFound. -/
def resolve_command (env : Env) (name : String) : Except WhyError String :=
  match env.which name with
  | some p => .ok p
  | none => .error (.CommandNotFound name)

/-- Detector::detect from src/detector/mod.rs: resolve the command,
walk the symlink chain, take its last element as the resolved path
(defaulting to the command path), build the context, run the registry,
and fall back to the "unknown" result when nothing matched (the verbose
eprintln logging is output-only and omitted). -/
def detector_detect (env : Env) (command : String) : Except WhyError DetectionResult :=
  match resolve_command env command with
  | .error e => .error e
  | .ok command_path =>
    let symlink_chain := follow_symlinks env.links env.canon command_path
    let resolved_path := symlink_chain.getLastD command_path
    let context : DetectionContext :=
      { command_name := command, command_path := command_path,
        symlink_chain := symlink_chain, resolved_path := resolved_path,
        platform := Platform.current env.target }
    match registry_detect (registry_new env.query_dpkg env.target) context with
    | some result => .ok result
    | none =>
      .ok { manager_id := "unknown", manager_name := "Unknown",
            package_name := none, version := none,
            confidence := .Uncertain,
            command_path := command_path, resolved_path := resolved_path }

/-! ## Lemmas about the symlink walker -/

/-- Unfolding: the loop stops on an already-seen path. -/
theorem follow_loop_mem {current : String} {seen : List String}
    (links : List (String × String)) (canon : String → Option String)
    (chain : List String) (hmem : current ∈ seen) :
    follow_loop links canon chain current seen = chain := by
  rw [follow_loop]
  simp [hmem]

/-- Unfolding: the loop stops when read_link fails. -/
theorem follow_loop_none {links : List (String × String)} {current : String}
    (canon : String → Option String) (chain : List String) (seen : List String)
    (hmem : current ∉ seen) (hrl : read_link links current = none) :
    follow_loop links canon chain current seen = chain := by
  rw [follow_loop]
  rw [dif_neg hmem]
  split
  · rfl
  · next target heq => rw [hrl] at heq; cases heq

/-- Unfolding: one successful loop iteration appends the resolved target
and recurses. -/
theorem follow_loop_step {links : List (String × String)} {current target : String}
    (canon : String → Option String) (chain : List String) (seen : List String)
    (hmem : current ∉ seen) (hrl : read_link links current = some target) :
    follow_loop links canon chain current seen =
      follow_loop links canon
        (chain ++ [(canon (resolve_target current target)).getD (resolve_target current target)])
        ((canon (resolve_target current target)).getD (resolve_target current target))
        (current :: seen) := by
  rw [follow_loop]
  rw [dif_neg hmem]
  split
  · next heq => rw [hrl] at heq; cases heq
  · next t heq =>
    rw [hrl] at heq
    cases heq
    rfl

/-- The loop only ever appends to the accumulated chain. -/
theorem follow_loop_append (links : List (String × String))
    (canon : String → Option String) :
    ∀ (chain : List String) (current : String) (seen : List String),
      ∃ w, follow_loop links canon chain current seen = chain ++ w := by
  intro chain current seen
  induction chain, current, seen using follow_loop.induct links canon with
  | case1 chain current seen hmem =>
    exact ⟨[], by rw [follow_loop_mem links canon chain hmem]; simp⟩
  | case2 chain current seen hmem hrl =>
    exact ⟨[], by rw [follow_loop_none canon chain seen hmem hrl]; simp⟩
  | case3 chain current seen hmem target hrl r1 r2 ih =>
    obtain ⟨w, hw⟩ := ih
    refine ⟨r2 :: w, ?_⟩
    rw [follow_loop_step canon chain seen hmem hrl]
    simpa [List.append_assoc] using hw

/-- Loop invariant: the accumulated chain is the reversed seen set plus
the current path, so every element of the final chain except possibly the
last one is pairwise distinct. -/
theorem follow_loop_dropLast_nodup (links : List (String × String))
    (canon : String → Option String) :
    ∀ (chain : List String) (current : String) (seen : List String),
      chain.dropLast = seen.reverse → seen.Nodup →
      chain.getLast? = some current →
      (follow_loop links canon chain current seen).dropLast.Nodup := by
  intro chain current seen
  induction chain, current, seen using follow_loop.induct links canon with
  | case1 chain current seen hmem =>
    intro hdrop hnd _
    rw [follow_loop_mem links canon chain hmem, hdrop]
    exact List.nodup_reverse.mpr hnd
  | case2 chain current seen hmem hrl =>
    intro hdrop hnd _
    rw [follow_loop_none canon chain seen hmem hrl, hdrop]
    exact List.nodup_reverse.mpr hnd
  | case3 chain current seen hmem target hrl r1 r2 ih =>
    intro hdrop hnd hlast
    rw [follow_loop_step canon chain seen hmem hrl]
    have hchain : chain = seen.reverse ++ [current] := by
      have := List.dropLast_append_getLast? current hlast
      rw [hdrop] at this
      exact this.symm
    refine ih ?_ ?_ ?_
    · rw [List.dropLast_concat, hchain, List.reverse_cons]
    · exact List.nodup_cons.mpr ⟨hmem, hnd⟩
    · exact List.getLast?_concat _

/-- The returned chain always starts with the input path. -/
theorem follow_symlinks_head (links : List (String × String))
    (canon : String → Option String) (path : String) :
    ∃ w, follow_symlinks links canon path = path :: w := by
  obtain ⟨w, hw⟩ := follow_loop_append links canon [path] path []
  exact ⟨w, by simpa using hw⟩

/-! ## Lemmas about the registry's stable sort and its scan -/

/-- The descending-priority order used by the registry sort. -/
def prioGE (a b : PackageManagerDetector) : Prop :=
  b.priority ≤ a.priority

/-- insertDesc splits its input at the insertion point: everything kept in
front of `x` has strictly larger priority (so equal priorities keep their
original relative order). -/
theorem insertDesc_decomp (x : PackageManagerDetector)
    (s : List PackageManagerDetector) :
    ∃ pre suf, s = pre ++ suf ∧ insertDesc x s = pre ++ x :: suf ∧
      ∀ y ∈ pre, x.priority < y.priority := by
  induction s with
  | nil => exact ⟨[], [], rfl, rfl, by simp⟩
  | cons y ys ih =>
    by_cases h : y.priority ≤ x.priority
    · exact ⟨[], y :: ys, rfl, by simp [insertDesc, h], by simp⟩
    · obtain ⟨pre, suf, h1, h2, h3⟩ := ih
      refine ⟨y :: pre, suf, by simp [h1], ?_, ?_⟩
      · simp [insertDesc, h, h2]
      · intro z hz
        rcases List.mem_cons.mp hz with rfl | hz'
        · exact not_le.mp h
        · exact h3 z hz'

/-- insertDesc is a permutation of consing. -/
theorem insertDesc_perm (x : PackageManagerDetector)
    (s : List PackageManagerDetector) :
    (insertDesc x s).Perm (x :: s) := by
  obtain ⟨pre, suf, h1, h2, _⟩ := insertDesc_decomp x s
  rw [h2, h1]
  exact List.perm_middle

/-- insertDesc preserves descending sortedness. -/
theorem insertDesc_sorted (x : PackageManagerDetector)
    {s : List PackageManagerDetector} (hs : List.Sorted prioGE s) :
    List.Sorted prioGE (insertDesc x s) := by
  induction s with
  | nil => simp [insertDesc, List.Sorted]
  | cons y ys ih =>
    rcases List.pairwise_cons.mp hs with ⟨hy, hys⟩
    by_cases h : y.priority ≤ x.priority
    · rw [insertDesc, if_pos h]
      refine List.pairwise_cons.mpr ⟨?_, hs⟩
      intro b hb
      rcases List.mem_cons.mp hb with rfl | hb'
      · exact h
      · exact le_trans (hy b hb') h
    · rw [insertDesc, if_neg h]
      refine List.pairwise_cons.mpr ⟨?_, ih hys⟩
      intro b hb
      have hmem : b = x ∨ b ∈ ys := by
        obtain ⟨pre, suf, h1, h2, _⟩ := insertDesc_decomp x ys
        rw [h2] at hb
        rcases List.mem_append.mp hb with hpre | hxs
        · exact Or.inr (h1 ▸ List.mem_append.mpr (Or.inl hpre))
        · rcases List.mem_cons.mp hxs with rfl | hsuf
          · exact Or.inl rfl
          · exact Or.inr (h1 ▸ List.mem_append.mpr (Or.inr hsuf))
      rcases hmem with rfl | hb'
      · exact le_of_lt (not_le.mp h)
      · exact hy b hb'

/-- The registry sort is sorted by descending priority. -/
theorem sortByPriorityDesc_sorted (l : List PackageManagerDetector) :
    List.Sorted prioGE (sortByPriorityDesc l) := by
  induction l with
  | nil => simp [sortByPriorityDesc, List.Sorted]
  | cons x xs ih => exact insertDesc_sorted x ih

/-- The registry sort permutes the registration list. -/
theorem sortByPriorityDesc_perm (l : List PackageManagerDetector) :
    (sortByPriorityDesc l).Perm l := by
  induction l with
  | nil => rfl
  | cons x xs ih =>
    exact ((insertDesc_perm x (sortByPriorityDesc xs)).trans (ih.cons x))

/-- Stability of insertDesc, phrased per priority class. -/
theorem insertDesc_filter (x : PackageManagerDetector)
    (s : List PackageManagerDetector) (k : Int) :
    (insertDesc x s).filter (fun d => d.priority == k) =
      (if x.priority == k then [x] else []) ++
        s.filter (fun d => d.priority == k) := by
  obtain ⟨pre, suf, h1, h2, h3⟩ := insertDesc_decomp x s
  rw [h2, h1, List.filter_append, List.filter_append]
  by_cases hk : x.priority == k
  · have hpre : pre.filter (fun d => d.priority == k) = [] := by
      rw [List.filter_eq_nil_iff]
      intro y hy
      have hlt := h3 y hy
      have hxk : x.priority = k := by simpa using hk
      simp only [beq_iff_eq]
      omega
    simp [hk, hpre, List.filter_cons]
  · simp [hk, List.filter_cons]

/-- Stability of the registry sort: each priority class appears in
registration order. -/
theorem sortByPriorityDesc_filter (l : List PackageManagerDetector) (k : Int) :
    (sortByPriorityDesc l).filter (fun d => d.priority == k) =
      l.filter (fun d => d.priority == k) := by
  induction l with
  | nil => rfl
  | cons x xs ih =>
    show (insertDesc x (sortByPriorityDesc xs)).filter _ = _
    rw [insertDesc_filter, ih, List.filter_cons]
    by_cases hk : x.priority == k <;> simp [hk]

/-- A successful registry scan splits the detector list at the winner:
every earlier supported detector returned nothing. -/
theorem registry_detect_some {s : List PackageManagerDetector}
    {ctx : DetectionContext} {r : DetectionResult}
    (h : registry_detect s ctx = some r) :
    ∃ pre d suf, s = pre ++ d :: suf ∧
      d.supports_platform ctx.platform = true ∧ d.detect ctx = some r ∧
      ∀ d' ∈ pre, d'.supports_platform ctx.platform = true →
        d'.detect ctx = none := by
  induction s with
  | nil => simp [registry_detect] at h
  | cons d rest ih =>
    rw [registry_detect] at h
    by_cases hs : d.supports_platform ctx.platform
    · rw [if_pos hs] at h
      cases hd : d.detect ctx with
      | some r' =>
        rw [hd] at h
        cases h
        exact ⟨[], d, rest, rfl, hs, hd, by simp⟩
      | none =>
        rw [hd] at h
        obtain ⟨pre, d', suf, h1, h2, h3, h4⟩ := ih h
        refine ⟨d :: pre, d', suf, by simp [h1], h2, h3, ?_⟩
        intro e he hsupp
        rcases List.mem_cons.mp he with rfl | he'
        · exact hd
        · exact h4 e he' hsupp
    · rw [if_neg hs] at h
      obtain ⟨pre, d', suf, h1, h2, h3, h4⟩ := ih h
      refine ⟨d :: pre, d', suf, by simp [h1], h2, h3, ?_⟩
      intro e he hsupp
      rcases List.mem_cons.mp he with rfl | he'
      · exact absurd hsupp (by simpa using hs)
      · exact h4 e he' hsupp

/-- An empty registry scan means every supported detector returned
nothing. -/
theorem registry_detect_none {s : List PackageManagerDetector}
    {ctx : DetectionContext} (h : registry_detect s ctx = none) :
    ∀ d ∈ s, d.supports_platform ctx.platform = true → d.detect ctx = none := by
  induction s with
  | nil => simp
  | cons d rest ih =>
    rw [registry_detect] at h
    intro e he hsupp
    by_cases hs : d.supports_platform ctx.platform
    · rw [if_pos hs] at h
      cases hd : d.detect ctx with
      | some r' => rw [hd] at h; cases h
      | none =>
        rw [hd] at h
        rcases List.mem_cons.mp he with rfl | he'
        · exact hd
        · exact ih h e he' hsupp
    · rw [if_neg hs] at h
      rcases List.mem_cons.mp he with rfl | he'
      · exact absurd hsupp (by simpa using hs)
      · exact ih h e he' hsupp

/-- A scan step past a non-matching detector. -/
theorem registry_detect_cons_of_none {d : PackageManagerDetector}
    {s : List PackageManagerDetector} {ctx : DetectionContext}
    (h : d.detect ctx = none) :
    registry_detect (d :: s) ctx = registry_detect s ctx := by
  rw [registry_detect]
  by_cases hs : d.supports_platform ctx.platform
  · rw [if_pos hs, h]
  · rw [if_neg hs]

/-- A scan step returning at a supported, matching detector. -/
theorem registry_detect_cons_of_some {d : PackageManagerDetector}
    {s : List PackageManagerDetector} {ctx : DetectionContext}
    {r : DetectionResult} (hs : d.supports_platform ctx.platform = true)
    (h : d.detect ctx = some r) :
    registry_detect (d :: s) ctx = some r := by
  rw [registry_detect, if_pos hs, h]

/-- A scan step past a detector that rejects the context's platform. -/
theorem registry_detect_cons_of_unsupported {d : PackageManagerDetector}
    {s : List PackageManagerDetector} {ctx : DetectionContext}
    (h : d.supports_platform ctx.platform = false) :
    registry_detect (d :: s) ctx = registry_detect s ctx := by
  rw [registry_detect, if_neg (by simp [h])]

/-! ## The concrete registries of the three build targets -/

/-- The Linux-target registry after the stable descending sort. -/
theorem registry_new_linux (q : String → Option (String × String)) :
    registry_new q .linux =
      [HomebrewDetector, BunGlobalDetector, NpmGlobalDetector,
        AptDetector q, SystemDetector] := rfl

/-- The macOS-target registry after the stable descending sort. -/
theorem registry_new_macos (q : String → Option (String × String)) :
    registry_new q .macos =
      [HomebrewDetector, BunGlobalDetector, NpmGlobalDetector,
        SystemDetector] := rfl

/-- The Windows-target registry after the stable descending sort. -/
theorem registry_new_windows (q : String → Option (String × String)) :
    registry_new q .windows =
      [HomebrewDetector, BunGlobalDetector, NpmGlobalDetector,
        ChocolateyDetector, SystemDetector] := rfl

/-- The registry of any other Unix target. -/
theorem registry_new_other (q : String → Option (String × String)) :
    registry_new q .other =
      [HomebrewDetector, BunGlobalDetector, NpmGlobalDetector,
        SystemDetector] := rfl

/-- On every build target the sorted registry starts with the Homebrew
detector (priority 100) followed by the bun detector (priority 95). -/
theorem registry_new_cons (q : String → Option (String × String))
    (target : BuildTarget) :
    ∃ rest, registry_new q target =
      HomebrewDetector :: BunGlobalDetector :: rest := by
  cases target with
  | macos => exact ⟨_, rfl⟩
  | linux => exact ⟨_, rfl⟩
  | windows => exact ⟨_, rfl⟩
  | other => exact ⟨_, rfl⟩

/-! ## Per-detector facts -/

/-- Both branches of the Homebrew detector label their result homebrew. -/
theorem homebrew_detect_id {ctx : DetectionContext} {r : DetectionResult}
    (h : homebrew_detect ctx = some r) : r.manager_id = "homebrew" := by
  unfold homebrew_detect at h
  split at h
  · cases h; rfl
  · split at h
    · cases h; rfl
    · cases h

/-- The npm detector only ever produces Medium-confidence npm results. -/
theorem npm_detect_props {ctx : DetectionContext} {r : DetectionResult}
    (h : npm_detect ctx = some r) :
    r.confidence = .Medium ∧ r.manager_id = "npm_global" := by
  unfold npm_detect at h
  split at h
  · cases h; exact ⟨rfl, rfl⟩
  · cases h

/-- The bun detector only ever produces Medium-confidence bun results. -/
theorem bun_detect_props {ctx : DetectionContext} {r : DetectionResult}
    (h : bun_detect ctx = some r) :
    r.confidence = .Medium ∧ r.manager_id = "bun_global" := by
  unfold bun_detect at h
  split at h
  · cases h; exact ⟨rfl, rfl⟩
  · cases h

/-- The system detector only ever produces Medium-confidence results. -/
theorem system_detect_props {ctx : DetectionContext} {r : DetectionResult}
    (h : system_detect ctx = some r) :
    r.confidence = .Medium ∧ r.manager_id = "system" := by
  unfold system_detect at h
  split at h
  · cases h; exact ⟨rfl, rfl⟩
  · cases h

/-- The chocolatey detector only ever produces Medium-confidence results. -/
theorem chocolatey_detect_props {ctx : DetectionContext} {r : DetectionResult}
    (h : chocolatey_detect ctx = some r) :
    r.confidence = .Medium ∧ r.manager_id = "chocolatey" := by
  unfold chocolatey_detect at h
  split at h
  · cases h; exact ⟨rfl, rfl⟩
  · cases h

/-- An apt result exists only after a successful dpkg query on the
resolved path, and is a High-confidence apt result. -/
theorem apt_detect_props {q : String → Option (String × String)}
    {ctx : DetectionContext} {r : DetectionResult}
    (h : apt_detect q ctx = some r) :
    r.confidence = .High ∧ r.manager_id = "apt" ∧
      ∃ pv, q ctx.resolved_path = some pv := by
  unfold apt_detect at h
  split at h
  · cases h
  · split at h
    · next package version heq => cases h; exact ⟨rfl, rfl, (package, version), heq⟩
    · cases h

/-- Neither separator variant of the yarn extractor can produce the
`.bin` infrastructure marker: the scoped branch produces a name starting
with an at-sign, and the plain branch explicitly rejects `.bin`. -/
theorem yarn_extract_try_ne_bin (path pat : List Char) (sep : Char) :
    yarn_extract_try path pat sep ≠ some (".bin") := by
  unfold yarn_extract_try
  split
  · exact Option.noConfusion
  · split
    · exact Option.noConfusion
    · next first rest hsplit =>
      split
      · exact Option.noConfusion
      · split
        · next hsc =>
          intro heq
          injection heq with heq'
          have hdata : first ++ '/' :: rest.headD [] = ['.', 'b', 'i', 'n'] :=
            congrArg String.data heq'
          have ha : startsWithChar first '@' = true := by
            have hsc' := hsc
            simp only [Bool.and_eq_true] at hsc'
            exact hsc'.1.1
          cases first with
          | nil => simp [startsWithChar] at ha
          | cons c f =>
            have hc : c = '@' := by simpa [startsWithChar] using ha
            rw [List.cons_append] at hdata
            injection hdata with h1 _
            rw [hc] at h1
            cases h1
        · split
          · exact Option.noConfusion
          · next hbin =>
            intro heq
            injection heq with heq'
            have hdata : first = ['.', 'b', 'i', 'n'] := congrArg String.data heq'
            rw [hdata] at hbin
            simp at hbin

/-- The yarn extractor as a whole never reports `.bin`. -/
theorem extract_yarn_ne_bin (path : String) :
    (extract_yarn_package_name path == some (".bin")) = false := by
  unfold extract_yarn_package_name
  split
  · next r hr =>
    have h := yarn_extract_try_ne_bin path.data (("/node_modules/").data) '/'
    rw [hr] at h
    exact beq_eq_false_iff_ne.mpr h
  · exact beq_eq_false_iff_ne.mpr
      (yarn_extract_try_ne_bin path.data (("\\node_modules\\").data) '\\')

/-- Every detector held by any build target's registry is one of the six
compiled detectors. -/
theorem registry_mem_cases (q : String → Option (String × String))
    (target : BuildTarget) (d : PackageManagerDetector)
    (hd : d ∈ registry_new q target) :
    d = HomebrewDetector ∨ d = BunGlobalDetector ∨ d = NpmGlobalDetector ∨
      d = SystemDetector ∨ d = AptDetector q ∨ d = ChocolateyDetector := by
  cases target with
  | macos => rw [registry_new_macos] at hd; simp at hd; tauto
  | linux => rw [registry_new_linux] at hd; simp at hd; tauto
  | windows => rw [registry_new_windows] at hd; simp at hd; tauto
  | other => rw [registry_new_other] at hd; simp at hd; tauto

/-! ## Claim C1 -/

/-- Claim C1: the registry's detect scans the stably sorted detector list
in descending priority order (ties in registration order, witnessed by the
per-priority-class filter identity), skips detectors whose
supports_platform rejects the context's platform, and returns the first
non-empty result; when it returns a result, that result comes from a
supported detector such that no supported detector of strictly higher
priority matched, and when it returns nothing, no supported detector
matched at all. -/
theorem C1_registry_detect_priority_first_match
    (l : List PackageManagerDetector) (ctx : DetectionContext) :
    List.Sorted prioGE (sortByPriorityDesc l)
    ∧ (∀ k : Int, (sortByPriorityDesc l).filter (fun d => d.priority == k)
        = l.filter (fun d => d.priority == k))
    ∧ (match registry_detect (sortByPriorityDesc l) ctx with
       | some r => ∃ d, d ∈ l ∧ d.supports_platform ctx.platform = true
           ∧ d.detect ctx = some r
           ∧ ∀ d', d' ∈ l → d'.supports_platform ctx.platform = true →
               d.priority < d'.priority → d'.detect ctx = none
       | none => ∀ d, d ∈ l → d.supports_platform ctx.platform = true →
           d.detect ctx = none) := by
  refine ⟨sortByPriorityDesc_sorted l, sortByPriorityDesc_filter l, ?_⟩
  cases hres : registry_detect (sortByPriorityDesc l) ctx with
  | none =>
    intro d hd hsupp
    exact registry_detect_none hres d
      ((sortByPriorityDesc_perm l).mem_iff.mpr hd) hsupp
  | some r =>
    obtain ⟨pre, d, suf, hsplit, hsupp, hdet, hpre⟩ := registry_detect_some hres
    have hdl : d ∈ l := (sortByPriorityDesc_perm l).mem_iff.mp
      (hsplit ▸ List.mem_append.mpr (Or.inr (List.mem_cons_self d suf)))
    refine ⟨d, hdl, hsupp, hdet, ?_⟩
    intro d' hd' hsupp' hlt
    have hd's : d' ∈ sortByPriorityDesc l :=
      (sortByPriorityDesc_perm l).mem_iff.mpr hd'
    rw [hsplit] at hd's
    rcases List.mem_append.mp hd's with hp | hds
    · exact hpre d' hp hsupp'
    · rcases List.mem_cons.mp hds with rfl | hsuf
      · exact absurd hlt (lt_irrefl _)
      · have hsorted := sortByPriorityDesc_sorted l
        rw [hsplit] at hsorted
        have hpair := (List.pairwise_append.mp hsorted).2.1
        have hle := (List.pairwise_cons.mp hpair).1 d' hsuf
        exact absurd hlt (not_lt.mpr hle)

/-! ## Claim C2 -/

/-- Claim C2: when path resolution succeeds and no registered detector
matches the built context, the orchestrator returns the fallback result
with identifier unknown, confidence Uncertain, no package name or
version, the resolved command path as command path, and the symlink
chain's last element as resolved path. -/
theorem C2_unknown_fallback_result (env : Env) (command p : String)
    (hwhich : env.which command = some p)
    (hreg : registry_detect (registry_new env.query_dpkg env.target)
        { command_name := command, command_path := p,
          symlink_chain := follow_symlinks env.links env.canon p,
          resolved_path := (follow_symlinks env.links env.canon p).getLastD p,
          platform := Platform.current env.target } = none) :
    detector_detect env command =
      .ok { manager_id := "unknown", manager_name := "Unknown",
            package_name := none, version := none,
            confidence := .Uncertain, command_path := p,
            resolved_path := (follow_symlinks env.links env.canon p).getLastD p }
    ∧ (follow_symlinks env.links env.canon p).getLast? =
        some ((follow_symlinks env.links env.canon p).getLastD p) := by
  constructor
  · unfold detector_detect resolve_command
    rw [hwhich]
    simp only []
    rw [hreg]
  · obtain ⟨w, hw⟩ := follow_symlinks_head env.links env.canon p
    rw [hw, List.getLastD_eq_getLast?]
    cases hl : (p :: w).getLast? with
    | none => exact absurd (List.getLast?_eq_none_iff.mp hl) (by simp)
    | some x => rfl

/-- Witness for C2: a command resolving to a path that no detector
recognizes yields exactly the unknown fallback result. -/
theorem C2_unknown_fallback_result_witness :
    detector_detect
      { which := fun n => if n == "mytool" then some ("/weird/place/tool") else none,
        links := [], canon := fun _ => none, query_dpkg := fun _ => none,
        target := .macos } ("mytool")
      = .ok { manager_id := "unknown", manager_name := "Unknown",
              package_name := none, version := none, confidence := .Uncertain,
              command_path := "/weird/place/tool",
              resolved_path := (follow_symlinks [] (fun _ => none)
                ("/weird/place/tool")).getLastD ("/weird/place/tool") }
    ∧ (follow_symlinks [] (fun _ => none) ("/weird/place/tool")).getLast? =
        some ((follow_symlinks [] (fun _ => none)
          ("/weird/place/tool")).getLastD ("/weird/place/tool")) := by
  have hchain : follow_symlinks [] (fun _ => none) ("/weird/place/tool")
      = ["/weird/place/tool"] := by
    rw [follow_symlinks]
    exact follow_loop_none _ _ _ (by simp) rfl
  refine C2_unknown_fallback_result _ ("mytool") ("/weird/place/tool") (by decide) ?_
  rw [hchain]
  decide

/-! ## Claim C3 -/

/-- Claim C3: the orchestrator errs exactly when the command fails to
resolve, the error is always CommandNotFound, and a successful resolution
always produces some result, whatever the symlink table, canonicalizer
and dpkg oracles do. -/
theorem C3_command_not_found_sole_error (env : Env) (command : String) :
    (env.which command = none →
       detector_detect env command = .error (.CommandNotFound command))
    ∧ (∀ p, env.which command = some p →
        ∃ r, detector_detect env command = .ok r)
    ∧ (∀ e, detector_detect env command = .error e →
         env.which command = none ∧ e = .CommandNotFound command) := by
  refine ⟨?_, ?_, ?_⟩
  · intro hw
    unfold detector_detect resolve_command
    rw [hw]
  · intro p hp
    unfold detector_detect resolve_command
    rw [hp]
    simp only []
    cases hreg : registry_detect (registry_new env.query_dpkg env.target)
        { command_name := command, command_path := p,
          symlink_chain := follow_symlinks env.links env.canon p,
          resolved_path := (follow_symlinks env.links env.canon p).getLastD p,
          platform := Platform.current env.target } with
    | some result => exact ⟨result, rfl⟩
    | none => exact ⟨_, rfl⟩
  · intro e he
    cases hw : env.which command with
    | none =>
      refine ⟨rfl, ?_⟩
      unfold detector_detect resolve_command at he
      rw [hw] at he
      injection he with he'
      exact he'.symm
    | some p =>
      exfalso
      unfold detector_detect resolve_command at he
      rw [hw] at he
      simp only [] at he
      revert he
      cases hreg : registry_detect (registry_new env.query_dpkg env.target)
          { command_name := command, command_path := p,
            symlink_chain := follow_symlinks env.links env.canon p,
            resolved_path := (follow_symlinks env.links env.canon p).getLastD p,
            platform := Platform.current env.target } with
      | some result => intro he; simp at he
      | none => intro he; simp at he

/-- Witness for C3: a name the search cannot resolve surfaces as
CommandNotFound. -/
theorem C3_command_not_found_sole_error_witness :
    detector_detect
      { which := fun _ => none, links := [], canon := fun _ => none,
        query_dpkg := fun _ => none, target := .linux } ("doesnotexist123")
      = .error (.CommandNotFound ("doesnotexist123")) :=
  (C3_command_not_found_sole_error _ _).1 rfl

/-! ## Claim C4 -/

/-- Claim C4: for every input path the walker's chain has length at least
one and starts with the input path, and when the input path is not a
symlink (read_link fails on it) the chain is exactly the singleton of the
input path. -/
theorem C4_follow_symlinks_chain_shape (links : List (String × String))
    (canon : String → Option String) (path : String) :
    (follow_symlinks links canon path).head? = some path
    ∧ 1 ≤ (follow_symlinks links canon path).length
    ∧ (read_link links path = none →
        follow_symlinks links canon path = [path]) := by
  obtain ⟨w, hw⟩ := follow_symlinks_head links canon path
  refine ⟨by rw [hw]; rfl, by rw [hw]; simp, ?_⟩
  intro hrl
  rw [follow_symlinks]
  exact follow_loop_none canon [path] [] (by simp) hrl

/-- Witness for C4: a path absent from the symlink table yields the
singleton chain. -/
theorem C4_follow_symlinks_chain_shape_witness :
    (follow_symlinks [] (fun _ => none) ("/bin/ls")).head? = some ("/bin/ls")
    ∧ 1 ≤ (follow_symlinks [] (fun _ => none) ("/bin/ls")).length
    ∧ follow_symlinks [] (fun _ => none) ("/bin/ls") = ["/bin/ls"] := by
  have h := C4_follow_symlinks_chain_shape [] (fun _ => none) ("/bin/ls")
  exact ⟨h.1, h.2.1, h.2.2 rfl⟩

/-! ## Claim C5 -/

/-- Counterexample to C5 as stated: on the two-cycle a to b to a the
walker terminates but returns a chain that itself contains the repeated
path as its final element, so the chain is not the duplicate-free prefix
of observed paths. -/
theorem C5_cycle_chain_counterexample :
    follow_symlinks [("/a", "/b"), ("/b", "/a")] (fun _ => none) ("/a")
      = ["/a", "/b", "/a"]
    ∧ ¬ (["/a", "/b", "/a"] : List String).Nodup := by
  constructor
  · simp [follow_symlinks, follow_loop_mem, follow_loop_none, follow_loop_step,
      read_link, resolve_target, path_is_absolute, strStarts, List.find?]
  · decide

/-- Claim C5 as amended: on any symlink table the walker terminates and
every chain element except the last is pairwise distinct; the first
repeated path is included once, as the final element, as the self-loop
example shows. -/
theorem C5_cycle_chain_amended :
    (∀ (links : List (String × String)) (canon : String → Option String)
       (path : String), (follow_symlinks links canon path).dropLast.Nodup)
    ∧ follow_symlinks [("/s", "/s")] (fun _ => none) ("/s") = ["/s", "/s"] := by
  constructor
  · intro links canon path
    exact follow_loop_dropLast_nodup links canon [path] path []
      (by simp) (by simp) rfl
  · simp [follow_symlinks, follow_loop_mem, follow_loop_none, follow_loop_step,
      read_link, resolve_target, path_is_absolute, strStarts, List.find?]

/-! ## Claim C6 -/

/-- Counterexample to C6 as stated: with the package-database query oracle
constantly failing (the query tool absent), the registry still produces a
High-confidence result, from the Homebrew detector's bare Cellar
path-pattern match, so High results are not always externally verified. -/
theorem C6_high_confidence_counterexample :
    (registry_detect (registry_new (fun _ => none) .macos)
        { command_name := "git", command_path := "/opt/homebrew/bin/git",
          symlink_chain := ["/opt/homebrew/bin/git",
            "/opt/homebrew/Cellar/git/2.51.2/bin/git"],
          resolved_path := "/opt/homebrew/Cellar/git/2.51.2/bin/git",
          platform := .MacOS }).map
      (fun r => (r.manager_id, r.confidence, r.package_name, r.version))
      = some (("homebrew"), Confidence.High, some ("git"), some ("2.51.2")) := by
  decide

/-- Claim C6 as amended: a High-confidence registry result is either the
Homebrew detector's Cellar structured-path match (no external query), or
the apt detector's match, which does require a successful dpkg query on
the resolved path; every other registered detector assigns at most
Medium. -/
theorem C6_high_confidence_amended (q : String → Option (String × String))
    (target : BuildTarget) (ctx : DetectionContext) (r : DetectionResult)
    (hdet : registry_detect (registry_new q target) ctx = some r)
    (hhigh : r.confidence = .High) :
    r.manager_id = "homebrew" ∨
      (r.manager_id = "apt" ∧ ∃ pv, q ctx.resolved_path = some pv) := by
  obtain ⟨pre, d, suf, hsplit, hsupp, hdetect, _⟩ := registry_detect_some hdet
  have hd : d ∈ registry_new q target := by
    rw [hsplit]
    exact List.mem_append.mpr (Or.inr (List.mem_cons_self d suf))
  rcases registry_mem_cases q target d hd with rfl | rfl | rfl | rfl | rfl | rfl
  · exact Or.inl (homebrew_detect_id hdetect)
  · have hconf := (bun_detect_props hdetect).1
    rw [hhigh] at hconf
    cases hconf
  · have hconf := (npm_detect_props hdetect).1
    rw [hhigh] at hconf
    cases hconf
  · have hconf := (system_detect_props hdetect).1
    rw [hhigh] at hconf
    cases hconf
  · obtain ⟨h1, h2, h3⟩ := apt_detect_props hdetect
    exact Or.inr ⟨h2, h3⟩
  · have hconf := (chocolatey_detect_props hdetect).1
    rw [hhigh] at hconf
    cases hconf

/-- Witness for the amended C6: a dpkg-verified apt match on Linux falls
into the apt disjunct. -/
theorem C6_high_confidence_amended_witness :
    ({ manager_id := "apt", manager_name := "apt", package_name := some ("git"),
       version := some ("2.39.5"), confidence := .High,
       command_path := "/usr/bin/git",
       resolved_path := "/usr/bin/git" } : DetectionResult).manager_id = "homebrew"
    ∨ (({ manager_id := "apt", manager_name := "apt",
          package_name := some ("git"), version := some ("2.39.5"),
          confidence := .High, command_path := "/usr/bin/git",
          resolved_path := "/usr/bin/git" } : DetectionResult).manager_id = "apt"
        ∧ ∃ pv, (fun _ => some (("git"), ("2.39.5"))) ("/usr/bin/git") = some pv) := by
  refine C6_high_confidence_amended (fun _ => some (("git"), ("2.39.5"))) .linux
    { command_name := "git", command_path := "/usr/bin/git",
      symlink_chain := ["/usr/bin/git"], resolved_path := "/usr/bin/git",
      platform := .Linux } _ ?_ rfl
  decide

/-! ## Claim C7 -/

/-- Counterexample to C7 as stated: the npm extractor reports the `.bin`
infrastructure segment verbatim when it directly follows node_modules. -/
theorem C7_bin_segment_counterexample :
    extract_npm_package_name ("/usr/local/lib/node_modules/.bin/tsc")
      = some (".bin") := by
  decide

/-- Claim C7 as amended: the yarn extractor never reports the `.bin`
infrastructure segment as a package name, and both extractors return a
scoped name together with its following segment as one combined unit; the
npm extractor performs no infrastructure-segment exclusion. -/
theorem C7_bin_segment_amended :
    (∀ path : String, (extract_yarn_package_name path == some (".bin")) = false)
    ∧ extract_yarn_package_name
        ("/home/u/.config/yarn/global/node_modules/@angular/cli/bin/ng")
        = some ("@angular/cli")
    ∧ extract_npm_package_name
        ("/home/user/.npm-global/lib/node_modules/@angular/cli/bin/ng")
        = some ("@angular/cli") := by
  exact ⟨extract_yarn_ne_bin, by decide, by decide⟩

/-! ## Claim C8 -/

/-- Claim C8 evaluated on its own scenario: for the yarn global symlink
chain the registry actually answers npm_global with package typescript,
because PackageManagerRegistry::new never registers the yarn detector
(mod.rs lacks a yarn module declaration), while the repository's
YarnGlobalDetector, applied to the same context, answers yarn_global with
package typescript exactly as the claim demands. -/
theorem C8_yarn_global_failing_input :
    (registry_detect (registry_new (fun _ => none) .linux)
        { command_name := "tsc", command_path := "/home/u/.yarn/bin/tsc",
          symlink_chain := ["/home/u/.yarn/bin/tsc",
            "/home/u/.config/yarn/global/node_modules/typescript/bin/tsc"],
          resolved_path :=
            "/home/u/.config/yarn/global/node_modules/typescript/bin/tsc",
          platform := .Linux }).map (fun r => (r.manager_id, r.package_name))
      = some (("npm_global"), some ("typescript"))
    ∧ (yarn_detect
        { command_name := "tsc", command_path := "/home/u/.yarn/bin/tsc",
          symlink_chain := ["/home/u/.yarn/bin/tsc",
            "/home/u/.config/yarn/global/node_modules/typescript/bin/tsc"],
          resolved_path :=
            "/home/u/.config/yarn/global/node_modules/typescript/bin/tsc",
          platform := .Linux }).map (fun r => (r.manager_id, r.package_name))
      = some (("yarn_global"), some ("typescript")) := by
  constructor
  · decide
  · decide

/-! ## Claim C9 -/

/-- Counterexample to C9 as stated: a macOS context whose chain contains
the resolved Cellar path of git can still report a different package when
an earlier chain element also matches the Cellar pattern, because the
Homebrew detector takes the first Cellar match in chain order. -/
theorem C9_homebrew_scenario_counterexample :
    (("/opt/homebrew/Cellar/git/2.51.2/bin/git" : String) ∈
      (["/usr/local/Cellar/node/22.0.0/bin/node",
        "/opt/homebrew/Cellar/git/2.51.2/bin/git"] : List String))
    ∧ (registry_detect (registry_new (fun _ => none) .macos)
        { command_name := "git",
          command_path := "/usr/local/Cellar/node/22.0.0/bin/node",
          symlink_chain := ["/usr/local/Cellar/node/22.0.0/bin/node",
            "/opt/homebrew/Cellar/git/2.51.2/bin/git"],
          resolved_path := "/opt/homebrew/Cellar/git/2.51.2/bin/git",
          platform := .MacOS }).map
        (fun r => (r.manager_id, r.package_name, r.version))
      = some (("homebrew"), some ("node"), some ("22.0.0")) := by
  constructor
  · decide
  · decide

/-- Claim C9 as amended: on a macOS context containing the git Cellar
path, provided that path is the chain's first Cellar-pattern match,
detection returns the homebrew result with package git, version 2.51.2
and confidence High. -/
theorem C9_homebrew_scenario_amended (q : String → Option (String × String))
    (ctx : DetectionContext)
    (hplat : ctx.platform = .MacOS)
    (hmem : ("/opt/homebrew/Cellar/git/2.51.2/bin/git" : String) ∈ ctx.symlink_chain)
    (hfirst : ctx.symlink_chain.findSome? (fun p => cellar_captures p)
      = some (("git"), ("2.51.2"))) :
    registry_detect (registry_new q .macos) ctx =
      some { manager_id := "homebrew", manager_name := "Homebrew",
             package_name := some ("git"), version := some ("2.51.2"),
             confidence := .High, command_path := ctx.command_path,
             resolved_path := ctx.resolved_path } := by
  rw [registry_new_macos]
  have hdet : HomebrewDetector.detect ctx =
      some { manager_id := "homebrew", manager_name := "Homebrew",
             package_name := some ("git"), version := some ("2.51.2"),
             confidence := .High, command_path := ctx.command_path,
             resolved_path := ctx.resolved_path } := by
    show homebrew_detect ctx = _
    unfold homebrew_detect
    rw [hfirst]
  refine registry_detect_cons_of_some ?_ hdet
  show HomebrewDetector.supports_platform ctx.platform = true
  rw [hplat]
  rfl

/-- Witness for the amended C9: the natural two-element chain from the
Homebrew bin shim to the Cellar path yields exactly the claimed result. -/
theorem C9_homebrew_scenario_amended_witness :
    registry_detect (registry_new (fun _ => none) .macos)
      { command_name := "git", command_path := "/opt/homebrew/bin/git",
        symlink_chain := ["/opt/homebrew/bin/git",
          "/opt/homebrew/Cellar/git/2.51.2/bin/git"],
        resolved_path := "/opt/homebrew/Cellar/git/2.51.2/bin/git",
        platform := .MacOS } =
      some { manager_id := "homebrew", manager_name := "Homebrew",
             package_name := some ("git"), version := some ("2.51.2"),
             confidence := .High, command_path := "/opt/homebrew/bin/git",
             resolved_path := "/opt/homebrew/Cellar/git/2.51.2/bin/git" } := by
  exact C9_homebrew_scenario_amended (fun _ => none) _ rfl (by decide) (by decide)

/-! ## Claim C10 -/

/-- Counterexample to C10 as stated: a context whose chain contains a bun
global-install path (which also contains node_modules) need not report
bun_global, because the Homebrew detector has priority 100 and is
consulted before bun; here it matches an earlier Cellar element. -/
theorem C10_bun_priority_counterexample :
    ((["/opt/homebrew/Cellar/git/2.51.2/bin/git",
       "/Users/u/.bun/install/global/node_modules/.bin/x"] : List String).any
        (fun p => strContains p ("/.bun/install/global/")) = true)
    ∧ (registry_detect (registry_new (fun _ => none) .macos)
        { command_name := "x",
          command_path := "/opt/homebrew/Cellar/git/2.51.2/bin/git",
          symlink_chain := ["/opt/homebrew/Cellar/git/2.51.2/bin/git",
            "/Users/u/.bun/install/global/node_modules/.bin/x"],
          resolved_path := "/Users/u/.bun/install/global/node_modules/.bin/x",
          platform := .MacOS }).map (fun r => r.manager_id)
      = some ("homebrew") := by
  constructor
  · decide
  · decide

/-- On a context whose chain carries the bun global-install marker, the
scan is settled within the registry's first two entries: either the
Homebrew detector matched and its result is returned, or the bun
detector's result is; the scan never reaches the npm detector. -/
theorem bun_marker_registry_scan (q : String → Option (String × String))
    (target : BuildTarget) (ctx : DetectionContext)
    (hbun : ctx.symlink_chain.any
      (fun p => strContains p ("/.bun/install/global/")) = true) :
    (∃ rh, homebrew_detect ctx = some rh ∧
        registry_detect (registry_new q target) ctx = some rh)
    ∨ registry_detect (registry_new q target) ctx =
        some { manager_id := "bun_global", manager_name := "bun (global)",
               package_name := some ctx.command_name, version := none,
               confidence := .Medium, command_path := ctx.command_path,
               resolved_path := ctx.resolved_path } := by
  have hbd : BunGlobalDetector.detect ctx =
      some { manager_id := "bun_global", manager_name := "bun (global)",
             package_name := some ctx.command_name, version := none,
             confidence := .Medium, command_path := ctx.command_path,
             resolved_path := ctx.resolved_path } := by
    show bun_detect ctx = _
    unfold bun_detect
    have hex : ∃ p ∈ ctx.symlink_chain, bun_path_cond p = true := by
      obtain ⟨p, hp, hc⟩ := List.any_eq_true.mp hbun
      refine ⟨p, hp, ?_⟩
      unfold bun_path_cond
      rw [hc]
      simp
    obtain ⟨pfound, hfind⟩ := Option.isSome_iff_exists.mp
      (List.find?_isSome.mpr hex)
    rw [hfind]
  obtain ⟨rest, hreg⟩ := registry_new_cons q target
  rw [hreg]
  cases hh : homebrew_detect ctx with
  | some rh =>
    cases hsupp : HomebrewDetector.supports_platform ctx.platform with
    | true =>
      exact Or.inl ⟨rh, rfl, registry_detect_cons_of_some hsupp
        (show HomebrewDetector.detect ctx = some rh from hh)⟩
    | false =>
      right
      rw [registry_detect_cons_of_unsupported hsupp]
      exact registry_detect_cons_of_some rfl hbd
  | none =>
    right
    rw [registry_detect_cons_of_none
      (show HomebrewDetector.detect ctx = none from hh)]
    exact registry_detect_cons_of_some rfl hbd

/-- Claim C10 as amended: for every context whose chain contains the bun
global-install marker, every build target's registry never reports
npm_global (bun's priority 95 exceeds npm's 90, so the scan is settled at
homebrew or bun before npm is reached), and it reports the bun_global
result whenever the Homebrew detector (the only registered detector above
bun's priority 95) does not match. -/
theorem C10_bun_priority_amended (q : String → Option (String × String))
    (target : BuildTarget) (ctx : DetectionContext)
    (hbun : ctx.symlink_chain.any
      (fun p => strContains p ("/.bun/install/global/")) = true) :
    (∀ r, registry_detect (registry_new q target) ctx = some r →
        r.manager_id ≠ "npm_global")
    ∧ (homebrew_detect ctx = none →
        registry_detect (registry_new q target) ctx =
          some { manager_id := "bun_global", manager_name := "bun (global)",
                 package_name := some ctx.command_name, version := none,
                 confidence := .Medium, command_path := ctx.command_path,
                 resolved_path := ctx.resolved_path }) := by
  constructor
  · intro r hr
    rcases bun_marker_registry_scan q target ctx hbun with ⟨rh, hh, heq⟩ | heq
    · rw [heq] at hr
      injection hr with hr'
      rw [← hr', homebrew_detect_id hh]
      decide
    · rw [heq] at hr
      injection hr with hr'
      rw [← hr']
      show ("bun_global" : String) ≠ "npm_global"
      decide
  · intro hh
    rcases bun_marker_registry_scan q target ctx hbun with ⟨rh, hh', _⟩ | heq
    · rw [hh] at hh'
      cases hh'
    · exact heq

/-- Witness for the amended C10: a bun global-install shim chain reports
bun_global, whose identifier differs from npm_global. -/
theorem C10_bun_priority_amended_witness :
    registry_detect (registry_new (fun _ => none) .macos)
      { command_name := "eslint",
        command_path := "/Users/u/.bun/install/global/node_modules/.bin/eslint",
        symlink_chain := ["/Users/u/.bun/install/global/node_modules/.bin/eslint"],
        resolved_path := "/Users/u/.bun/install/global/node_modules/.bin/eslint",
        platform := .MacOS } =
      some { manager_id := "bun_global", manager_name := "bun (global)",
             package_name := some ("eslint"), version := none,
             confidence := .Medium,
             command_path := "/Users/u/.bun/install/global/node_modules/.bin/eslint",
             resolved_path := "/Users/u/.bun/install/global/node_modules/.bin/eslint" }
    ∧ ({ manager_id := "bun_global", manager_name := "bun (global)",
         package_name := some ("eslint"), version := none,
         confidence := .Medium,
         command_path := "/Users/u/.bun/install/global/node_modules/.bin/eslint",
         resolved_path := "/Users/u/.bun/install/global/node_modules/.bin/eslint" } :
        DetectionResult).manager_id ≠ "npm_global" := by
  have h := C10_bun_priority_amended (fun _ => none) .macos
    { command_name := "eslint",
      command_path := "/Users/u/.bun/install/global/node_modules/.bin/eslint",
      symlink_chain := ["/Users/u/.bun/install/global/node_modules/.bin/eslint"],
      resolved_path := "/Users/u/.bun/install/global/node_modules/.bin/eslint",
      platform := .MacOS } (by decide)
  exact ⟨h.2 (by decide), h.1 _ (h.2 (by decide))⟩

end Why
